import Mathlib

/-!
Verification of the roboat library's request-validation / CSRF-retry core.

This file shallowly embeds the in-scope subsystem of the `roboat` Roblox API
client (error taxonomy, 403/400 response validator, CSRF-retry wrapper,
client state) and proves properties about it.

Sources embedded:
  * `src/lib.rs`       — the `RoboatError` taxonomy.
  * `src/validation.rs`— `Client::process_403`, `Client::process_400`,
                          `Client::handle_non_200_status_codes`.
  * `src/client.rs`    — `Client` state, `set_xcsrf`, `xcsrf`,
                          `cookie_string`, `ClientBuilder::build`.
  * `src/trades/mod.rs`— `Client::decline_trade` /
                          `Client::decline_trade_internal`, the
                          representative instance of the retry convention.

Modelling conventions:
  * HTTP bodies are modelled as `Option Json`: `some j` when the body text is
    valid JSON with value `j`, `none` when it is not valid JSON. The serde
    deserialisation of a `Json` value into the Rust structs is implemented
    concretely (field names after `rename_all = "camelCase"`, all fields
    required, extra fields ignored).
  * Header values are modelled as `String`s (the `.to_str().unwrap()` on
    non-UTF8 header bytes is outside the model).
  * The base64 layer of the `rblx-challenge-metadata` header is abstracted
    into its outcome (`MetadataHeader`): the header is absent, present but
    not valid base64, or base64 whose decoded bytes may or may not be JSON.
  * A Rust panic is modelled as `none` in an `Option` result.
-/

namespace Roboat

/-- Embeds the `RoboatError` enum of `src/lib.rs`. Payloads that are foreign
types in Rust (`reqwest::Error`, `std::io::Error`, the purchase sub-error
enums) are abstracted to `String`; the `u16` Roblox error codes are `Nat`s
(kept below 65536 by the deserialiser). -/
inductive RoboatError where
  | TooManyRequests
  | InternalServerError
  | BadRequest
  | InvalidRoblosecurity
  | UnknownRobloxErrorCode (code : Nat) (message : String)
  | RoblosecurityNotSet
  | UnidentifiedStatusCode (code : Nat)
  | MalformedResponse
  | InvalidXcsrf (token : String)
  | XcsrfNotReturned
  | ChallengeRequired (challengeId : String)
  | UnknownStatus403Format
  | PurchaseTradableLimitedError (e : String)
  | PurchaseNonTradableLimitedError (e : String)
  | ReqwestError (e : String)
  | IoError (e : String)
  | InvalidPath (path : String)
  deriving DecidableEq, Repr

/-- A JSON value, the model of a parsed HTTP body or decoded header. -/
inductive Json where
  | null
  | bool (b : Bool)
  | num (n : Int)
  | str (s : String)
  | arr (elems : List Json)
  | obj (fields : List (String × Json))

/-- Field lookup on a JSON object (first occurrence), `none` on non-objects.
Models serde's field access on a JSON map. -/
def Json.getField : Json → String → Option Json
  | Json.obj fields, key => fields.lookup key
  | _, _ => none

/-- serde deserialisation of a JSON value into a Rust `String` field. -/
def Json.asStr : Json → Option String
  | Json.str s => some s
  | _ => none

/-- serde deserialisation of a JSON value into a Rust `bool` field. -/
def Json.asBool : Json → Option Bool
  | Json.bool b => some b
  | _ => none

/-- serde deserialisation of a JSON value into a Rust `u16` field: an integer
in `[0, 65535]`. -/
def Json.asU16 : Json → Option Nat
  | Json.num n => if 0 ≤ n ∧ n < 65536 then some n.toNat else none
  | _ => none

/-- Embeds `RobloxErrorRaw` of `src/validation.rs` (`code: u16`,
`message: String`). -/
structure RobloxErrorRaw where
  code : Nat
  message : String
  deriving DecidableEq, Repr

/-- Embeds `RobloxErrorResponse` of `src/validation.rs`
(`errors: Vec<RobloxErrorRaw>`). -/
structure RobloxErrorResponse where
  errors : List RobloxErrorRaw
  deriving DecidableEq, Repr

/-- Embeds `ChallengeMetadata` of `src/validation.rs`; serde renames every
field to camelCase and all fields are required. -/
structure ChallengeMetadata where
  user_id : String
  challenge_id : String
  should_show_remember_device_checkbox : Bool
  remember_device : Bool
  session_cookie : String
  verification_token : String
  action_type : String
  request_path : String
  request_method : String
  deriving DecidableEq, Repr

/-- Typed field lookup: the field must be present and a JSON string. -/
def Json.getStr (j : Json) (key : String) : Option String :=
  (j.getField key).bind Json.asStr

/-- Typed field lookup: the field must be present and a JSON boolean. -/
def Json.getBool (j : Json) (key : String) : Option Bool :=
  (j.getField key).bind Json.asBool

/-- Typed field lookup: the field must be present and an integer fitting
`u16`. -/
def Json.getU16 (j : Json) (key : String) : Option Nat :=
  (j.getField key).bind Json.asU16

/-- serde deserialisation of a `Json` value into `RobloxErrorRaw`: both
fields required with the right types. -/
def parseRobloxErrorRaw (j : Json) : Option RobloxErrorRaw :=
  (j.getU16 "code").bind fun code =>
  (j.getStr "message").bind fun message =>
  some { code := code, message := message }

/-- serde deserialisation of a `Json` value into `RobloxErrorResponse`: the
`errors` field must be an array each of whose elements deserialises to
`RobloxErrorRaw`. -/
def parseRobloxErrorResponse (j : Json) : Option RobloxErrorResponse :=
  match j.getField "errors" with
  | some (Json.arr elems) =>
      (elems.mapM parseRobloxErrorRaw).bind fun errors =>
      some { errors := errors }
  | _ => none

/-- serde deserialisation of a `Json` value into `ChallengeMetadata`: all
nine camelCase fields required with the right types. -/
def parseChallengeMetadata (j : Json) : Option ChallengeMetadata :=
  (j.getStr "userId").bind fun user_id =>
  (j.getStr "challengeId").bind fun challenge_id =>
  (j.getBool "shouldShowRememberDeviceCheckbox").bind fun ssrdc =>
  (j.getBool "rememberDevice").bind fun remember_device =>
  (j.getStr "sessionCookie").bind fun session_cookie =>
  (j.getStr "verificationToken").bind fun verification_token =>
  (j.getStr "actionType").bind fun action_type =>
  (j.getStr "requestPath").bind fun request_path =>
  (j.getStr "requestMethod").bind fun request_method =>
  some { user_id := user_id, challenge_id := challenge_id,
         should_show_remember_device_checkbox := ssrdc,
         remember_device := remember_device,
         session_cookie := session_cookie,
         verification_token := verification_token,
         action_type := action_type,
         request_path := request_path,
         request_method := request_method }

/-- The state of the `rblx-challenge-metadata` header value, abstracting the
base64 layer of `src/validation.rs` into its outcome:
  * `invalidBase64` — the header is present but
    `general_purpose::STANDARD.decode` fails (the Rust code `.unwrap()`s
    here, i.e. panics);
  * `decoded mj` — base64 decoding succeeds; `mj = some j` when the decoded
    bytes are the JSON value `j`, `mj = none` when they are not JSON. -/
inductive MetadataHeader where
  | invalidBase64
  | decoded (mj : Option Json)

/-- An HTTP response as seen by the validator of `src/validation.rs`:
its status code, the `x-csrf-token` header (`XCSRF_HEADER` of `src/lib.rs`),
the `rblx-challenge-metadata` header, and the body. `body = some j` models a
body that is valid JSON `j`; `none` a body that is not valid JSON. -/
structure Response where
  status : Nat
  xcsrf_header : Option String
  challenge_metadata_header : Option MetadataHeader
  body : Option Json

/-- The xcsrf fallback of `Client::process_403` (`src/validation.rs`, used
both when the body is undecodable and when the first error code is 0):
`InvalidXcsrf` carrying the `x-csrf-token` header when present,
`XcsrfNotReturned` otherwise. -/
def xcsrf_fallback (r : Response) : RoboatError :=
  match r.xcsrf_header with
  | some x => RoboatError.InvalidXcsrf x
  | none => RoboatError.XcsrfNotReturned

/-- The challenge-metadata tail of `Client::process_403`
(`src/validation.rs` lines 77–103): missing header → `UnknownStatus403Format`;
invalid base64 → panic (the `.unwrap()`), modelled as `none`; decoded bytes
that do not deserialise to `ChallengeMetadata` → `UnknownStatus403Format`;
otherwise `ChallengeRequired` with the metadata's challenge id. -/
def challenge_metadata_path (r : Response) : Option RoboatError :=
  match r.challenge_metadata_header with
  | none => some RoboatError.UnknownStatus403Format
  | some MetadataHeader.invalidBase64 => none
  | some (MetadataHeader.decoded mj) =>
    match mj.bind parseChallengeMetadata with
    | some metadata_struct =>
        some (RoboatError.ChallengeRequired metadata_struct.challenge_id)
    | none => some RoboatError.UnknownStatus403Format

/-- Embeds `Client::process_403` of `src/validation.rs`. `none` models a
panic (the base64 `.unwrap()`); `some e` the returned `RoboatError`. -/
def process_403 (r : Response) : Option RoboatError :=
  match r.body.bind parseRobloxErrorResponse with
  | some x =>
    match x.errors.head? with
    | some error =>
      if error.code = 0 then
        some (xcsrf_fallback r)
      else if error.message ≠ "Challenge is required to authorize the request" then
        some (RoboatError.UnknownRobloxErrorCode error.code error.message)
      else
        challenge_metadata_path r
    | none => some RoboatError.UnknownStatus403Format
  | none => some (xcsrf_fallback r)

/-- Embeds `Client::process_400` of `src/validation.rs`: undecodable body →
`BadRequest`; first error present → `UnknownRobloxErrorCode` with its code
and message; empty errors list → `BadRequest`. -/
def process_400 (r : Response) : RoboatError :=
  match r.body.bind parseRobloxErrorResponse with
  | some error_response =>
    match error_response.errors.head? with
    | some error =>
        RoboatError.UnknownRobloxErrorCode error.code error.message
    | none => RoboatError.BadRequest
  | none => RoboatError.BadRequest

/-- Embeds `Client::handle_non_200_status_codes` of `src/validation.rs`.
`none` models a panic inside `process_403`. -/
def handle_non_200_status_codes (r : Response) :
    Option (Except RoboatError Response) :=
  match r.status with
  | 200 => some (Except.ok r)
  | 400 => some (Except.error (process_400 r))
  | 401 => some (Except.error RoboatError.InvalidRoblosecurity)
  | 403 => (process_403 r).map Except.error
  | 429 => some (Except.error RoboatError.TooManyRequests)
  | 500 => some (Except.error RoboatError.InternalServerError)
  | status_code =>
      some (Except.error (RoboatError.UnidentifiedStatusCode status_code))

/-- Embeds the `Client` state of `src/client.rs`: the optional cookie header
(`cookie_string: Option<HeaderValue>`) and the current xcsrf token
(`xcsrf: RwLock<String>`). The identity cache and the reqwest transport
handle play no role in the claims and are omitted. -/
structure Client where
  cookie_string : Option String
  xcsrf : String
  deriving DecidableEq, Repr

/-- Embeds `Client::set_xcsrf` of `src/client.rs`: replaces the stored xcsrf
token. -/
def Client.set_xcsrf (c : Client) (xcsrf : String) : Client :=
  { c with xcsrf := xcsrf }

/-- Embeds `Client::cookie_string` of `src/client.rs` (the method; the field
of the same name is the structure field): a copy of the stored cookie header,
or `RoblosecurityNotSet` if the roblosecurity was never set. -/
def Client.cookieString (c : Client) : Except RoboatError String :=
  match c.cookie_string with
  | some cookie => Except.ok cookie
  | none => Except.error RoboatError.RoblosecurityNotSet

/-- Embeds `create_cookie_string_header` of `src/client.rs`. -/
def create_cookie_string_header (roblosecurity : String) : String :=
  ".ROBLOSECURITY=" ++ roblosecurity

/-- Embeds `ClientBuilder` of `src/client.rs` (the reqwest client field is
omitted). -/
structure ClientBuilder where
  roblosecurity : Option String
  deriving DecidableEq, Repr

/-- Embeds `ClientBuilder::build` of `src/client.rs`: the cookie header is
built from the roblosecurity when one was set; the xcsrf starts as the
default empty string. -/
def ClientBuilder.build (b : ClientBuilder) : Client :=
  { cookie_string := b.roblosecurity.map create_cookie_string_header,
    xcsrf := "" }

/-- The outcome of a single already-validated network exchange of
`decline_trade_internal`: what `Self::validate_request_result` yields for
the POST to `DECLINE_TRADE_API`. A `Server` function maps the xcsrf header
sent with the request to that outcome; the first and second attempts of a
public call may see different server behaviour. -/
def Server : Type := String → Except RoboatError Unit

/-- Embeds `Client::decline_trade_internal` of `src/trades/mod.rs`
(lines 474–493): read the cookie header (failing fast with
`RoblosecurityNotSet` before any network traffic), read the current xcsrf,
then issue the POST and validate it. The returned `Bool` is instrumentation
recording whether a network request was issued. -/
def Client.decline_trade_internal (c : Client) (server : Server) :
    Except RoboatError Unit × Bool :=
  match c.cookieString with
  | Except.error e => (Except.error e, false)
  | Except.ok _ => (server c.xcsrf, true)

/-- The observable outcome of a public `decline_trade` call: the final
client state, the returned result, and instrumentation counting how many
times `decline_trade_internal` was invoked and how many network requests
were issued. -/
structure DeclineTradeOutcome where
  client : Client
  result : Except RoboatError Unit
  internal_calls : Nat
  network_requests : Nat

/-- Embeds `Client::decline_trade` of `src/trades/mod.rs` (lines 327–339),
the representative instance of the CSRF-retry convention: call
`decline_trade_internal` once; on `Ok` return it; on
`Err(InvalidXcsrf(new_xcsrf))` store the new token with `set_xcsrf` and call
`decline_trade_internal` exactly one more time, returning its result as-is;
on any other error return it unchanged. `server1` and `server2` model the
validated outcomes the server would produce for a first and a second
exchange. -/
def Client.decline_trade (c : Client) (server1 server2 : Server) :
    DeclineTradeOutcome :=
  let a1 := c.decline_trade_internal server1
  match a1.1 with
  | Except.ok x =>
      { client := c, result := Except.ok x,
        internal_calls := 1, network_requests := if a1.2 then 1 else 0 }
  | Except.error e =>
    match e with
    | RoboatError.InvalidXcsrf new_xcsrf =>
        let c2 := c.set_xcsrf new_xcsrf
        let a2 := c2.decline_trade_internal server2
        { client := c2, result := a2.1, internal_calls := 2,
          network_requests :=
            (if a1.2 then 1 else 0) + (if a2.2 then 1 else 0) }
    | _ =>
        { client := c, result := Except.error e,
          internal_calls := 1, network_requests := if a1.2 then 1 else 0 }

/-! Concrete inputs used by the witnesses and counterexamples below. -/

/-- A body of the structured error format with a single error entry. -/
def errors_body (code : Nat) (message : String) : Json :=
  Json.obj [("errors",
    Json.arr [Json.obj [("code", Json.num code),
                        ("message", Json.str message)]])]

/-- The exact challenge-required phrase tested by `process_403`. -/
def challenge_phrase : String :=
  "Challenge is required to authorize the request"

/-- A 403 response whose body is not decodable as the structured error
format, with a replacement token in the `x-csrf-token` header. -/
def resp_undecodable : Response :=
  { status := 403, xcsrf_header := some "abc",
    challenge_metadata_header := none,
    body := some (Json.str "not an error object") }

/-- A 403 response whose first error has code 0, with a replacement token
in the `x-csrf-token` header. -/
def resp_code_zero : Response :=
  { status := 403, xcsrf_header := some "abc",
    challenge_metadata_header := none,
    body := some (errors_body 0 "") }

/-- A 403 response whose first error carries the domain code 9 ("user does
not own asset" in the unused `src/response_processing.rs` table). -/
def resp_code_nine : Response :=
  { status := 403, xcsrf_header := none,
    challenge_metadata_header := none,
    body := some (errors_body 9 "User does not own asset") }

/-- A 403 challenge response whose `rblx-challenge-metadata` header is
present but not valid base64. -/
def resp_bad_base64 : Response :=
  { status := 403, xcsrf_header := some "abc",
    challenge_metadata_header := some MetadataHeader.invalidBase64,
    body := some (errors_body 1 challenge_phrase) }

/-- A 403 challenge response whose metadata header decodes to JSON that has
a `challengeId` field but not the rest of the metadata structure. -/
def resp_partial_metadata : Response :=
  { status := 403, xcsrf_header := none,
    challenge_metadata_header := some (MetadataHeader.decoded
      (some (Json.obj [("challengeId", Json.str "xyz")]))),
    body := some (errors_body 1 challenge_phrase) }

/-- A complete challenge-metadata JSON object with challenge id "xyz". -/
def full_metadata_json : Json :=
  Json.obj [("userId", Json.str "123"),
            ("challengeId", Json.str "xyz"),
            ("shouldShowRememberDeviceCheckbox", Json.bool false),
            ("rememberDevice", Json.bool false),
            ("sessionCookie", Json.str "sc"),
            ("verificationToken", Json.str "vt"),
            ("actionType", Json.str "Generic"),
            ("requestPath", Json.str "/v1/some/path"),
            ("requestMethod", Json.str "POST")]

/-- A 403 challenge response whose metadata header decodes to the complete
metadata structure. -/
def resp_full_metadata : Response :=
  { status := 403, xcsrf_header := none,
    challenge_metadata_header :=
      some (MetadataHeader.decoded (some full_metadata_json)),
    body := some (errors_body 1 challenge_phrase) }

/-- A 403 challenge response with no metadata header at all. -/
def resp_no_metadata : Response :=
  { status := 403, xcsrf_header := some "abc",
    challenge_metadata_header := none,
    body := some (errors_body 1 challenge_phrase) }

/-- A 400 response with a decodable body whose first error carries the
unrecognized code 55. -/
def resp_400_code55 : Response :=
  { status := 400, xcsrf_header := none,
    challenge_metadata_header := none,
    body := some (errors_body 55 "Something else") }

/-- A 400 response with an undecodable body. -/
def resp_400_undecodable : Response :=
  { status := 400, xcsrf_header := none,
    challenge_metadata_header := none,
    body := none }

/-- A 403 response with a decodable body whose errors list is empty, with a
replacement token present in the `x-csrf-token` header. -/
def resp_empty_errors : Response :=
  { status := 403, xcsrf_header := some "abc",
    challenge_metadata_header := none,
    body := some (Json.obj [("errors", Json.arr [])]) }

/-! The claims about the 403/400 validator. -/

/-- Claim C3: for every 403 response whose body cannot be decoded as the
structured error format, and likewise for every 403 response whose body
decodes with a first error entry of code 0, `process_403` returns
`InvalidXcsrf t` where `t` is the `x-csrf-token` response header when that
header is present, and `XcsrfNotReturned` when it is absent. -/
theorem c3_stale_csrf_fallback (r : Response)
    (h : Option.bind r.body parseRobloxErrorResponse = none ∨
         ∃ x e es, Option.bind r.body parseRobloxErrorResponse = some x ∧
           x.errors = e :: es ∧ e.code = 0) :
    (∀ t, r.xcsrf_header = some t →
        process_403 r = some (RoboatError.InvalidXcsrf t)) ∧
    (r.xcsrf_header = none →
        process_403 r = some RoboatError.XcsrfNotReturned) := by
  have hfb : process_403 r = some (xcsrf_fallback r) := by
    rcases h with h | ⟨x, e, es, hx, he, hc⟩
    · simp [process_403, h]
    · simp [process_403, hx, he, hc]
  constructor
  · intro t ht
    rw [hfb]
    simp [xcsrf_fallback, ht]
  · intro ht
    rw [hfb]
    simp [xcsrf_fallback, ht]

/-- Witness for C3: an undecodable-body 403 with header token "abc" gives
`InvalidXcsrf "abc"`, and a code-0 403 without the header gives the same
fallback with token "abc" present. -/
theorem c3_stale_csrf_fallback_witness :
    process_403 resp_undecodable = some (RoboatError.InvalidXcsrf "abc") ∧
    process_403 resp_code_zero = some (RoboatError.InvalidXcsrf "abc") := by
  constructor
  · exact (c3_stale_csrf_fallback resp_undecodable (Or.inl (by decide))).1
      "abc" rfl
  · exact (c3_stale_csrf_fallback resp_code_zero
      (Or.inr ⟨⟨[⟨0, ""⟩]⟩, ⟨0, ""⟩, [], by decide, rfl, rfl⟩)).1 "abc" rfl

/-- Claim C10: a 403 response whose body decodes to the structured format
with an empty errors list yields `UnknownStatus403Format`, regardless of the
`x-csrf-token` header. -/
theorem c10_empty_errors (r : Response) (x : RobloxErrorResponse)
    (hx : Option.bind r.body parseRobloxErrorResponse = some x)
    (he : x.errors = []) :
    process_403 r = some RoboatError.UnknownStatus403Format := by
  simp [process_403, hx, he]

/-- Witness for C10: a 403 with body decoding to an empty errors list and a
replacement token present in the header still gives
`UnknownStatus403Format`. -/
theorem c10_empty_errors_witness :
    process_403 resp_empty_errors = some RoboatError.UnknownStatus403Format :=
  c10_empty_errors resp_empty_errors ⟨[]⟩ (by decide) rfl

/-- Counterexample to claim C4: on a 403 whose first error carries the
domain code 9 ("user does not own asset"), the validator actually used by
the endpoint methods (`Client::process_403` in `src/validation.rs`) returns
the generic `UnknownRobloxErrorCode` — the code-9 domain mapping lives only
in `src/response_processing.rs`, which is not part of the crate's module
tree. -/
theorem c4_counterexample :
    process_403 resp_code_nine =
      some (RoboatError.UnknownRobloxErrorCode 9 "User does not own asset") := by
  decide

/-- Amended claim C4: for every 403 response decoding to the structured
format whose first error has a nonzero code and a message different from the
challenge-required phrase, `process_403` returns `UnknownRobloxErrorCode`
carrying that code and message (no domain-specific mapping exists in the
validator used by the endpoint methods). -/
theorem c4_unknown_error_code (r : Response) (x : RobloxErrorResponse)
    (e : RobloxErrorRaw) (es : List RobloxErrorRaw)
    (hx : Option.bind r.body parseRobloxErrorResponse = some x)
    (he : x.errors = e :: es) (hc : e.code ≠ 0)
    (hm : e.message ≠ challenge_phrase) :
    process_403 r =
      some (RoboatError.UnknownRobloxErrorCode e.code e.message) := by
  unfold challenge_phrase at hm
  simp [process_403, hx, he, hc, hm]

/-- Witness for amended C4: the code-9 response yields
`UnknownRobloxErrorCode 9 _`. -/
theorem c4_unknown_error_code_witness :
    process_403 resp_code_nine =
      some (RoboatError.UnknownRobloxErrorCode 9 "User does not own asset") :=
  c4_unknown_error_code resp_code_nine ⟨[⟨9, "User does not own asset"⟩]⟩
    ⟨9, "User does not own asset"⟩ [] (by decide) rfl (by decide) (by decide)

/-- Counterexample to claim C5: on a 403 challenge-phrase response whose
`rblx-challenge-metadata` header is present but not valid base64,
`Client::process_403` panics (the `.unwrap()` on the base64 decode,
modelled as `none`) instead of returning `UnknownStatus403Format`. -/
theorem c5_counterexample :
    process_403 resp_bad_base64 = none ∧
    process_403 resp_bad_base64 ≠ some RoboatError.UnknownStatus403Format := by
  constructor
  · decide
  · decide

/-- Amended claim C5: on a 403 challenge-phrase response, a missing
`rblx-challenge-metadata` header or base64-decodable content that is not the
expected metadata JSON yields `UnknownStatus403Format`; content that is not
valid base64 makes the code panic (the base64 `.unwrap()`), modelled as
`none`, rather than returning any error. -/
theorem c5_metadata_failure_handling (r : Response)
    (x : RobloxErrorResponse) (e : RobloxErrorRaw) (es : List RobloxErrorRaw)
    (hx : Option.bind r.body parseRobloxErrorResponse = some x)
    (he : x.errors = e :: es) (hc : e.code ≠ 0)
    (hm : e.message = challenge_phrase) :
    (r.challenge_metadata_header = none →
        process_403 r = some RoboatError.UnknownStatus403Format) ∧
    (∀ mj, r.challenge_metadata_header = some (MetadataHeader.decoded mj) →
        Option.bind mj parseChallengeMetadata = none →
        process_403 r = some RoboatError.UnknownStatus403Format) ∧
    (r.challenge_metadata_header = some MetadataHeader.invalidBase64 →
        process_403 r = none) := by
  unfold challenge_phrase at hm
  have hpath : process_403 r = challenge_metadata_path r := by
    simp [process_403, hx, he, hc, hm]
  refine ⟨?_, ?_, ?_⟩
  · intro hh
    rw [hpath]
    simp [challenge_metadata_path, hh]
  · intro mj hh hp
    rw [hpath]
    simp [challenge_metadata_path, hh, hp]
  · intro hh
    rw [hpath]
    simp [challenge_metadata_path, hh]

/-- Witness for amended C5: the missing-header and partial-metadata
responses give `UnknownStatus403Format`. -/
theorem c5_metadata_failure_handling_witness :
    process_403 resp_no_metadata = some RoboatError.UnknownStatus403Format ∧
    process_403 resp_partial_metadata =
      some RoboatError.UnknownStatus403Format := by
  constructor
  · exact (c5_metadata_failure_handling resp_no_metadata
      ⟨[⟨1, challenge_phrase⟩]⟩ ⟨1, challenge_phrase⟩ []
      (by decide) rfl (by decide) rfl).1 rfl
  · exact ((c5_metadata_failure_handling resp_partial_metadata
      ⟨[⟨1, challenge_phrase⟩]⟩ ⟨1, challenge_phrase⟩ []
      (by decide) rfl (by decide) rfl).2.1
      (some (Json.obj [("challengeId", Json.str "xyz")])) rfl (by decide))

/-- Counterexample to claim C6: a 400 response with a decodable body whose
first error carries the unrecognized code 55 yields
`UnknownRobloxErrorCode 55 _`, not the generic `BadRequest` the claim
requires for unrecognized codes. -/
theorem c6_counterexample :
    process_400 resp_400_code55 =
      RoboatError.UnknownRobloxErrorCode 55 "Something else" ∧
    process_400 resp_400_code55 ≠ RoboatError.BadRequest := by
  constructor
  · decide
  · decide

/-- Amended claim C6: on a 400 response, `process_400` returns `BadRequest`
when the body is undecodable or the decoded errors list is empty, and
`UnknownRobloxErrorCode` carrying the first error's code and message
otherwise; no code-to-domain-error mapping exists in `process_400`. -/
theorem c6_process_400_classification (r : Response) :
    (Option.bind r.body parseRobloxErrorResponse = none →
        process_400 r = RoboatError.BadRequest) ∧
    (∀ x, Option.bind r.body parseRobloxErrorResponse = some x →
        x.errors = [] → process_400 r = RoboatError.BadRequest) ∧
    (∀ x e es, Option.bind r.body parseRobloxErrorResponse = some x →
        x.errors = e :: es →
        process_400 r =
          RoboatError.UnknownRobloxErrorCode e.code e.message) := by
  refine ⟨?_, ?_, ?_⟩
  · intro h
    simp [process_400, h]
  · intro x hx he
    simp [process_400, hx, he]
  · intro x e es hx he
    simp [process_400, hx, he]

/-- Witness for amended C6: the code-55 response maps to
`UnknownRobloxErrorCode 55 _` and the undecodable one to `BadRequest`. -/
theorem c6_process_400_classification_witness :
    process_400 resp_400_code55 =
      RoboatError.UnknownRobloxErrorCode 55 "Something else" ∧
    process_400 resp_400_undecodable = RoboatError.BadRequest := by
  constructor
  · exact (c6_process_400_classification resp_400_code55).2.2
      ⟨[⟨55, "Something else"⟩]⟩ ⟨55, "Something else"⟩ [] (by decide) rfl
  · exact (c6_process_400_classification resp_400_undecodable).1 (by decide)

/-- Counterexample to claim C7: a 403 challenge-phrase response whose
metadata header holds base64-encoded JSON containing a `challengeId` field
equal to "xyz" — but not the other required fields of the metadata
structure — yields `UnknownStatus403Format`, not `ChallengeRequired "xyz"`:
serde requires all nine metadata fields. -/
theorem c7_counterexample :
    process_403 resp_partial_metadata =
      some RoboatError.UnknownStatus403Format ∧
    process_403 resp_partial_metadata ≠
      some (RoboatError.ChallengeRequired "xyz") := by
  constructor
  · decide
  · decide

/-- Amended claim C7: for every 403 response decoding to the structured
format whose first error has a nonzero code and the exact challenge-required
message, and whose metadata header holds base64-encoded JSON that
deserialises into the complete challenge-metadata structure with challenge
id `s`, `process_403` returns `ChallengeRequired s`. -/
theorem c7_challenge_required (r : Response)
    (x : RobloxErrorResponse) (e : RobloxErrorRaw) (es : List RobloxErrorRaw)
    (j : Json) (m : ChallengeMetadata)
    (hx : Option.bind r.body parseRobloxErrorResponse = some x)
    (he : x.errors = e :: es) (hc : e.code ≠ 0)
    (hm : e.message = challenge_phrase)
    (hh : r.challenge_metadata_header =
        some (MetadataHeader.decoded (some j)))
    (hp : parseChallengeMetadata j = some m) :
    process_403 r = some (RoboatError.ChallengeRequired m.challenge_id) := by
  unfold challenge_phrase at hm
  simp [process_403, hx, he, hc, hm, challenge_metadata_path, hh, hp]

/-- Witness for amended C7: the complete-metadata response yields
`ChallengeRequired "xyz"`. -/
theorem c7_challenge_required_witness :
    process_403 resp_full_metadata =
      some (RoboatError.ChallengeRequired "xyz") := by
  exact c7_challenge_required resp_full_metadata
    ⟨[⟨1, challenge_phrase⟩]⟩ ⟨1, challenge_phrase⟩ [] full_metadata_json
    ⟨"123", "xyz", false, false, "sc", "vt", "Generic", "/v1/some/path",
      "POST"⟩
    (by decide) rfl (by decide) rfl rfl (by decide)

/-! Concrete clients and server behaviours for the retry-wrapper
witnesses. -/

/-- A client with a roblosecurity set and the stale token "old". -/
def client_with_cookie : Client :=
  { cookie_string := some ".ROBLOSECURITY=sec", xcsrf := "old" }

/-- A server that rejects every attempt as stale, supplying the
replacement token "t1". -/
def server_stale_t1 : Server :=
  fun _ => Except.error (RoboatError.InvalidXcsrf "t1")

/-- A server that rejects every attempt as stale, supplying the
replacement token "t2". -/
def server_stale_t2 : Server :=
  fun _ => Except.error (RoboatError.InvalidXcsrf "t2")

/-- A server that accepts every attempt. -/
def server_ok : Server :=
  fun _ => Except.ok ()

/-- A server that rejects every attempt with a rate-limit error. -/
def server_rate_limited : Server :=
  fun _ => Except.error RoboatError.TooManyRequests

/-! The claims about the CSRF-retry convention, proved on its
representative instance `Client::decline_trade`. -/

/-- Claim C1: `decline_trade` calls `decline_trade_internal` a second time
exactly when the first attempt fails with `InvalidXcsrf`; in that case the
new token is stored via `set_xcsrf` before the second attempt and the second
attempt's result is returned as-is; any other first-attempt error is
returned immediately after a single attempt; and when the first attempt
fails with `InvalidXcsrf t` and the second succeeds, the call returns the
success value with the stored xcsrf equal to `t`. -/
theorem c1_csrf_retry_convention (c : Client) (s1 s2 : Server) :
    ((c.decline_trade s1 s2).internal_calls = 2 ↔
      ∃ t, (c.decline_trade_internal s1).1 =
        Except.error (RoboatError.InvalidXcsrf t)) ∧
    (∀ t, (c.decline_trade_internal s1).1 =
        Except.error (RoboatError.InvalidXcsrf t) →
      (c.decline_trade s1 s2).client = c.set_xcsrf t ∧
      (c.decline_trade s1 s2).client.xcsrf = t ∧
      (c.decline_trade s1 s2).result =
        ((c.set_xcsrf t).decline_trade_internal s2).1) ∧
    (∀ e, (c.decline_trade_internal s1).1 = Except.error e →
      (∀ t, e ≠ RoboatError.InvalidXcsrf t) →
      (c.decline_trade s1 s2).result = Except.error e ∧
      (c.decline_trade s1 s2).internal_calls = 1) ∧
    ((c.decline_trade_internal s1).1 = Except.ok () →
      (c.decline_trade s1 s2).result = Except.ok () ∧
      (c.decline_trade s1 s2).internal_calls = 1) ∧
    (∀ t, (c.decline_trade_internal s1).1 =
        Except.error (RoboatError.InvalidXcsrf t) →
      ((c.set_xcsrf t).decline_trade_internal s2).1 = Except.ok () →
      (c.decline_trade s1 s2).result = Except.ok () ∧
      (c.decline_trade s1 s2).client.xcsrf = t) := by
  refine ⟨?_, ?_, ?_, ?_, ?_⟩
  · constructor
    · intro hcalls
      rcases h1 : (c.decline_trade_internal s1).1 with e | v
      · cases e <;> simp [Client.decline_trade, h1] at hcalls
        exact ⟨_, rfl⟩
      · simp [Client.decline_trade, h1] at hcalls
    · rintro ⟨t, ht⟩
      simp [Client.decline_trade, ht]
  · intro t ht
    refine ⟨?_, ?_, ?_⟩ <;>
      simp [Client.decline_trade, ht, Client.set_xcsrf]
  · intro e he hne
    cases e <;>
      first
        | exact absurd rfl (hne _)
        | (constructor <;> simp [Client.decline_trade, he])
  · intro hok
    constructor <;> simp [Client.decline_trade, hok]
  · intro t ht hok
    simp only [Client.set_xcsrf] at hok
    constructor <;> simp [Client.decline_trade, ht, hok, Client.set_xcsrf]

/-- Witness for C1: with a stale first attempt supplying "t1" and a
successful second attempt, the public call succeeds and the stored xcsrf is
"t1". -/
theorem c1_csrf_retry_convention_witness :
    (client_with_cookie.decline_trade server_stale_t1 server_ok).result =
      Except.ok () ∧
    (client_with_cookie.decline_trade server_stale_t1
      server_ok).client.xcsrf = "t1" :=
  (c1_csrf_retry_convention client_with_cookie server_stale_t1
    server_ok).2.2.2.2 "t1" rfl rfl

/-- Claim C2: `decline_trade` invokes `decline_trade_internal` at most
twice; when both attempts fail with `InvalidXcsrf`, the public call returns
the second `InvalidXcsrf` error (with the second replacement token) after
exactly two attempts, and no third invocation occurs. -/
theorem c2_retry_terminates (c : Client) (s1 s2 : Server) :
    (c.decline_trade s1 s2).internal_calls ≤ 2 ∧
    (∀ t1 t2, (c.decline_trade_internal s1).1 =
        Except.error (RoboatError.InvalidXcsrf t1) →
      ((c.set_xcsrf t1).decline_trade_internal s2).1 =
        Except.error (RoboatError.InvalidXcsrf t2) →
      (c.decline_trade s1 s2).result =
        Except.error (RoboatError.InvalidXcsrf t2) ∧
      (c.decline_trade s1 s2).internal_calls = 2) := by
  constructor
  · rcases h1 : (c.decline_trade_internal s1).1 with e | v
    · cases e <;> simp [Client.decline_trade, h1]
    · simp [Client.decline_trade, h1]
  · intro t1 t2 h1 h2
    simp only [Client.set_xcsrf] at h2
    constructor <;> simp [Client.decline_trade, h1, h2, Client.set_xcsrf]

/-- Witness for C2: with both attempts stale ("t1" then "t2"), the call
returns `InvalidXcsrf "t2"` after exactly two internal invocations. -/
theorem c2_retry_terminates_witness :
    (client_with_cookie.decline_trade server_stale_t1
        server_stale_t2).result =
      Except.error (RoboatError.InvalidXcsrf "t2") ∧
    (client_with_cookie.decline_trade server_stale_t1
        server_stale_t2).internal_calls = 2 :=
  (c2_retry_terminates client_with_cookie server_stale_t1
    server_stale_t2).2 "t1" "t2" rfl rfl

/-- Claim C9: when both attempts fail with `InvalidXcsrf` (tokens `t1` then
`t2`), the stored xcsrf after the call is `t1` — the second replacement
token travels only inside the returned error and is never stored by the
wrapper. -/
theorem c9_second_token_not_stored (c : Client) (s1 s2 : Server)
    (t1 t2 : String)
    (h1 : (c.decline_trade_internal s1).1 =
      Except.error (RoboatError.InvalidXcsrf t1))
    (h2 : ((c.set_xcsrf t1).decline_trade_internal s2).1 =
      Except.error (RoboatError.InvalidXcsrf t2)) :
    (c.decline_trade s1 s2).client.xcsrf = t1 ∧
    (c.decline_trade s1 s2).result =
      Except.error (RoboatError.InvalidXcsrf t2) := by
  simp only [Client.set_xcsrf] at h2
  constructor <;> simp [Client.decline_trade, h1, h2, Client.set_xcsrf]

/-- Witness for C9: with both attempts stale ("t1" then "t2"), the stored
xcsrf is "t1" while the returned error carries "t2". -/
theorem c9_second_token_not_stored_witness :
    (client_with_cookie.decline_trade server_stale_t1
        server_stale_t2).client.xcsrf = "t1" ∧
    (client_with_cookie.decline_trade server_stale_t1
        server_stale_t2).result =
      Except.error (RoboatError.InvalidXcsrf "t2") :=
  c9_second_token_not_stored client_with_cookie server_stale_t1
    server_stale_t2 "t1" "t2" rfl rfl

/-- Claim C8: a client built without a roblosecurity fails
`decline_trade` fast with `RoblosecurityNotSet`, issuing zero network
requests; and when the cookie is set, the `cookie_string` accessor returns
the stored header unchanged. -/
theorem c8_roblosecurity_not_set (b : ClientBuilder) (s1 s2 : Server) :
    (b.roblosecurity = none →
      (b.build.decline_trade s1 s2).result =
        Except.error RoboatError.RoblosecurityNotSet ∧
      (b.build.decline_trade s1 s2).network_requests = 0) ∧
    (∀ c : Client, ∀ v, c.cookie_string = some v →
      c.cookieString = Except.ok v) := by
  constructor
  · intro hb
    have hcookie : (b.build).cookie_string = none := by
      simp [ClientBuilder.build, hb]
    have hint : (b.build).decline_trade_internal s1 =
        (Except.error RoboatError.RoblosecurityNotSet, false) := by
      simp [Client.decline_trade_internal, Client.cookieString, hcookie]
    simp [Client.decline_trade, hint]
  · intro c v hv
    simp [Client.cookieString, hv]

/-- Witness for C8: the cookie-less built client fails fast with zero
network requests, and a client holding cookie header "ck" returns it
unchanged. -/
theorem c8_roblosecurity_not_set_witness :
    ((ClientBuilder.build ⟨none⟩).decline_trade server_ok server_ok).result =
      Except.error RoboatError.RoblosecurityNotSet ∧
    ((ClientBuilder.build ⟨none⟩).decline_trade server_ok
        server_ok).network_requests = 0 ∧
    Client.cookieString ⟨some "ck", ""⟩ = Except.ok "ck" := by
  refine ⟨?_, ?_, ?_⟩
  · exact ((c8_roblosecurity_not_set ⟨none⟩ server_ok server_ok).1 rfl).1
  · exact ((c8_roblosecurity_not_set ⟨none⟩ server_ok server_ok).1 rfl).2
  · exact (c8_roblosecurity_not_set ⟨none⟩ server_ok server_ok).2
      ⟨some "ck", ""⟩ "ck" rfl

end Roboat
